import Mathlib

/-!
Verification development for the RSA (Respiratory Sinus Arrhythmia) module
`neurokit2/ecg/ecg_rsa.py`.

The Python module is embedded shallowly:

* numpy/pandas float values are modelled exactly: a possibly-missing real
  quantity is an `Option ℚ` (`none` is the not-a-number sentinel);
  quantities that pass through the natural logarithm are modelled by the
  symbolic types `LogVal` / `PBVal` below, which record the exact real value
  (ln of a positive rational, negative infinity, or NaN) without rounding.
* fallible code (raised exceptions) is modelled with `Except Err`.
* the external collaborators of the module (resampling, filtering,
  interpolation, peak sanitization; spec section 6) are parameters of the
  embedding, bundled in the structure `Collab`.
-/

/-- Substring test on character lists: `leadsWith n h` holds when `n` is an
initial segment of `h`.  Used to embed Python's `"pat" in col` test. -/
def leadsWith : List Char → List Char → Bool
  | [], _ => true
  | _ :: _, [] => false
  | a :: as, b :: bs => a == b && leadsWith as bs

/-- `hasSub h n` holds when the character list `n` occurs contiguously inside
`h`; embeds Python's substring containment operator `in`. -/
def hasSub : List Char → List Char → Bool
  | [], n => n.isEmpty
  | h@(_ :: t), n => leadsWith n h || hasSub t n

/-- String containment: Python's `needle in haystack`. -/
def strHasSub (haystack needle : String) : Bool :=
  hasSub haystack.toList needle.toList

/-- Successive differences of a list, embedding `np.diff`. -/
def npdiff : List ℤ → List ℤ
  | a :: b :: t => (b - a) :: npdiff (b :: t)
  | _ => []

/-- Maximum of a list, embedding `np.max` on a non-empty array (the `[]` case
is never reached by the code, which guards on length). -/
def np_max : List ℚ → ℚ
  | [] => 0
  | x :: t => t.foldl max x

/-- Minimum of a list, embedding `np.min` on a non-empty array. -/
def np_min : List ℚ → ℚ
  | [] => 0
  | x :: t => t.foldl min x

/-- Indices at which a list equals a given value: embeds
`np.where(column == v)[0]` (ascending order, no duplicates). -/
def whereEq (xs : List ℚ) (v : ℚ) : List ℕ :=
  (List.range xs.length).filter (fun i => decide (xs.getD i 0 = v))

/-- Sorted-set intersection, embedding `np.intersect1d(a, b, assume_unique=True)`
on the sorted duplicate-free index arrays produced by `np.where`: keeps the
elements of `a` that also occur in `b`, in order. -/
def np_intersect1d (a b : List ℕ) : List ℕ :=
  a.filter (fun x => decide (x ∈ b))

/-- Mean over the non-NaN entries, embedding `np.nanmean`: NaN entries are
dropped; the mean of zero remaining entries is NaN (`none`). -/
def np_nanmean (vs : List (Option ℚ)) : Option ℚ :=
  let xs := vs.filterMap id
  if xs.length = 0 then none else some (xs.sum / (xs.length : ℚ))

/-- Radicand computed by `np.nanstd(vs, ddof=1)` before its final square root:
the Bessel-corrected sample variance of the non-NaN entries.  With `n` the
number of non-NaN entries, numpy divides the sum of squared deviations by
`n - 1`; for `n = 1` this is `0/0 = NaN` and for `n = 0` the mean is already
NaN, so both give `none`.  The standard deviation reported by the code is the
(real) square root of this value: it is NaN exactly when this is `none`, and
zero exactly when this is `some 0`. -/
def np_nanvar_ddof1 (vs : List (Option ℚ)) : Option ℚ :=
  let xs := vs.filterMap id
  if xs.length ≤ 1 then none
  else some (((xs.map (fun x => (x - xs.sum / (xs.length : ℚ)) ^ 2)).sum) /
    ((xs.length : ℚ) - 1))

/-- Exact value of `np.log` applied to a possibly-NaN real: NaN for NaN or
negative input, negative infinity for zero, and the (symbolic, exact)
natural logarithm `lnPos q` for positive rational `q`. -/
inductive LogVal : Type where
  | nan : LogVal
  | ninf : LogVal
  | lnPos : ℚ → LogVal
deriving DecidableEq, Repr

/-- Embeds `np.log` on a possibly-NaN rational value. -/
def np_log : Option ℚ → LogVal
  | none => LogVal.nan
  | some q => if q < 0 then LogVal.nan else if q = 0 then LogVal.ninf else LogVal.lnPos q

/-- NaN test on a log value, embedding `np.isnan` (note `np.isnan(-inf)` is
`False`: only `nan` answers `true`). -/
def np_isnan_log : LogVal → Bool
  | LogVal.nan => true
  | _ => false

-- =============================================================
-- Peak-to-Trough estimator (`_ecg_rsa_p2t`, non-continuous part)
-- =============================================================

/-- Beats falling in each respiratory cycle: for consecutive inspiration
onsets `onset_idx, onset_{idx+1}`, collects the R-peak indices `r` with
`onset_idx ≤ r < onset_{idx+1}`.  Embeds the first loop of `_ecg_rsa_p2t`
(`rpeaks[np.logical_and(rpeaks >= cycle_init, rpeaks < cycle_end)]`). -/
def cyclesRri (rsp_onsets rpeaks : List ℕ) : List (List ℕ) :=
  (List.range (rsp_onsets.length - 1)).map (fun idx =>
    rpeaks.filter (fun r =>
      decide (rsp_onsets.getD idx 0 ≤ r) && decide (r < rsp_onsets.getD (idx + 1) 0)))

/-- Successive inter-beat intervals of one cycle in time units:
`RRis = np.diff(cycle) / sampling_rate`. -/
def cycleRRis (sr : ℚ) (cycle : List ℕ) : List ℚ :=
  (npdiff (cycle.map Int.ofNat)).map (fun d => (Int.cast d : ℚ) / sr)

/-- Per-cycle P2T estimate: `max(RRis) - min(RRis)` when `len(RRis) > 1`,
else the NaN sentinel.  Embeds the second loop of `_ecg_rsa_p2t`. -/
def cycleVal (sr : ℚ) (cycle : List ℕ) : Option ℚ :=
  let RRis := cycleRRis sr cycle
  if 1 < RRis.length then some (np_max RRis - np_min RRis) else none

/-- The per-cycle RSA value array `rsa_values` of `_ecg_rsa_p2t`
(initialized to NaN, filled where enough intervals exist). -/
def rsaValues (rsp_onsets rpeaks : List ℕ) (sr : ℚ) : List (Option ℚ) :=
  (cyclesRri rsp_onsets rpeaks).map (cycleVal sr)

/-- Result record of `_ecg_rsa_p2t` in non-continuous mode.  The field
`RSA_P2T_SD_sq` holds the radicand of `np.nanstd(rsa_values, ddof=1)`
(see `np_nanvar_ddof1`); the reported standard deviation is its real square
root. -/
structure P2TOut : Type where
  RSA_P2T_Mean : Option ℚ
  RSA_P2T_Mean_log : LogVal
  RSA_P2T_SD_sq : Option ℚ
  RSA_P2T_NoRSA : ℕ
deriving DecidableEq, Repr

/-- Non-continuous branch of `_ecg_rsa_p2t`:
`{"RSA_P2T_Mean": np.nanmean(v), "RSA_P2T_Mean_log": np.log(mean),
"RSA_P2T_SD": np.nanstd(v, ddof=1), "RSA_P2T_NoRSA": count of NaN}`. -/
def _ecg_rsa_p2t_noncont (rsp_onsets rpeaks : List ℕ) (sr : ℚ) : P2TOut :=
  let vals := rsaValues rsp_onsets rpeaks sr
  { RSA_P2T_Mean := np_nanmean vals
    RSA_P2T_Mean_log := np_log (np_nanmean vals)
    RSA_P2T_SD_sq := np_nanvar_ddof1 vals
    RSA_P2T_NoRSA := (vals.filter Option.isNone).length }

-- =============================================================
-- Data-frame model and error kinds
-- =============================================================

/-- Minimal model of a pandas DataFrame: an ordered list of named columns of
rational values.  Row alignment between concatenated frames is positional,
as in the source (an implicit precondition, not revalidated). -/
structure DF : Type where
  cols : List (String × List ℚ)
deriving DecidableEq, Repr

/-- Column names, embedding `df.columns`. -/
def DF.colNames (d : DF) : List String :=
  d.cols.map Prod.fst

/-- Data of the first column with exactly the given name (`df[name]`);
`[]` if absent (the source never reads a missing exact name on the
paths modelled here). -/
def DF.col (d : DF) (name : String) : List ℚ :=
  match d.cols.find? (fun c => c.1 == name) with
  | some c => c.2
  | none => []

/-- Exact-name column membership, embedding `name in df.columns`. -/
def DF.hasCol (d : DF) (name : String) : Bool :=
  d.cols.any (fun c => c.1 == name)

/-- Data of the first column whose name has the given substring: embeds
`cols = [c for c in df.columns if pat in c]` followed by `df[cols[0]]`,
or `none` when the filter comes back empty. -/
def DF.firstColWith (d : DF) (pat : String) : Option (List ℚ) :=
  (d.cols.find? (fun c => strHasSub c.1 pat)).map Prod.snd

/-- Number of rows, embedding `len(df)`. -/
def DF.nrows (d : DF) : ℕ :=
  match d.cols with
  | [] => 0
  | c :: _ => c.2.length

/-- Column-wise concatenation `pd.concat([a, b], axis=1)` (row positions
aligned by index, both frames sharing the sample grid). -/
def DF.hcat (a b : DF) : DF :=
  ⟨a.cols ++ b.cols⟩

/-- Exception kinds that can escape the module.  `inputError` is a
`ValueError` raised explicitly by `_ecg_rsa_formatinput` (the spec's
`InputError`); `nameError` an uncaught `NameError`; `indexError` an uncaught
out-of-bounds indexing error; `emptyConcat` the `ValueError` raised by
`pd.concat` on an empty list (the condition the spec labels
`ComputationError`); `emptyArrayMax` the `ValueError` raised by `np.max`
on an empty array. -/
inductive Err : Type where
  | inputError : Err
  | nameError : Err
  | indexError : Err
  | emptyConcat : Err
  | emptyArrayMax : Err
deriving DecidableEq, Repr

deriving instance DecidableEq for Except

/-- Failure kinds of the external beat-index sanitizer
`_signal_formatpeaks_sanitize`.  Modelled from the spec: the collaborator
contract says it "fails with `InputError` if indices cannot be located"
(spec section 6); the source additionally catches `NameError` from it, so
both failure kinds are represented. -/
inductive SanErr : Type where
  | nameError : SanErr
  | inputError : SanErr
deriving DecidableEq, Repr

/-- Modelled from the spec: bundle of the external collaborators consumed by
the module (spec section 6) — rate estimation from beats, ECG-derived
respiration, respiration processing, beat-index sanitization (on the cardiac
table, or on a supplied beat container of type `RP`), interpolation,
resampling and the two filtering passes.  They are parameters of the
embedding; their internals are out of scope. -/
structure Collab (RP : Type) : Type where
  signal_rate : Option RP → ℚ → ℕ → List ℚ
  ecg_rsp : List ℚ → ℚ → List ℚ
  rsp_process : List ℚ → ℚ → DF
  sanitize_df : DF → Except SanErr (List ℕ)
  sanitize_rp : RP → Except SanErr (List ℕ)
  interp : List ℕ → List ℚ → ℕ → List ℚ
  resample : List ℚ → ℚ → ℚ → List ℚ
  savgol : List ℚ → List ℚ
  band : List ℚ → List ℚ

/-- The `ecg_signals` argument: either a DataFrame or a tuple whose first
element is one (`isinstance(ecg_signals, tuple)` branch). -/
inductive EcgArg : Type where
  | df : DF → EcgArg
  | tup : DF → EcgArg

/-- The `rsp_signals` argument when supplied: a DataFrame or a tuple whose
first element is one. -/
inductive RspArg : Type where
  | df : DF → RspArg
  | tup : DF → RspArg

/-- Output of `_ecg_rsa_formatinput`: the aligned table, the heart-period
series, the sanitized beat indices and the optional raw respiration
series. -/
structure FmtOut : Type where
  signals : DF
  ecg_period : List ℚ
  rpeaks : List ℕ
  rsp_signal : Option (List ℚ)
deriving DecidableEq, Repr

-- =============================================================
-- Signal aligner (`_ecg_rsa_formatinput`)
-- =============================================================

/-- Cardiac table actually used: a tuple argument is replaced by its first
element (`ecg_signals = ecg_signals[0]`). -/
def fmtEcgTable : EcgArg → DF
  | EcgArg.df d => d
  | EcgArg.tup d => d

/-- Beat argument actually used: for a tuple cardiac argument the supplied
`rpeaks` is discarded (`rpeaks = None`). -/
def fmtRpeaksArg {RP : Type} : EcgArg → Option RP → Option RP
  | EcgArg.df _, r => r
  | EcgArg.tup _, _ => none

/-- Number of columns of `d` whose name has substring `pat` — embeds
`len([col for col in d.columns if pat in col])`. -/
def countColsWith (d : DF) (pat : String) : ℕ :=
  (d.colNames.filter (fun c => strHasSub c pat)).length

/-- Respiration resolution of `_ecg_rsa_formatinput` (source lines 341-364):
when no respiration argument was given, the cardiac table itself must show
exactly two phase-related columns, else a surrogate respiration signal is
derived from the heart period and processed; a tuple argument is replaced
by its first element; a supplied (or derived) frame lacking exactly two
phase-related columns triggers the surrogate derivation (again).  Warnings
on these paths are non-fatal and carry no data, so they are not
represented.  Returns the frame to concatenate, if any. -/
def fmtRsp {RP : Type} (C : Collab RP) (ecg : DF) (rsp_arg : Option RspArg)
    (sr : ℚ) (ecg_period : List ℚ) : Option DF :=
  let rsp2 : Option DF :=
    match rsp_arg with
    | none =>
      if countColsWith ecg ("RSP_Phase") ≠ 2 then
        some (C.rsp_process (C.ecg_rsp ecg_period sr) sr)
      else none
    | some (RspArg.df d) => some d
    | some (RspArg.tup d) => some d
  match rsp2 with
  | some d =>
    if countColsWith d ("RSP_Phase") ≠ 2 then
      some (C.rsp_process (C.ecg_rsp ecg_period sr) sr)
    else some d
  | none => none

/-- Beat-index resolution of `_ecg_rsa_formatinput` (source lines 366-372):
with no beat argument, sanitize from the cardiac table, re-raising a
`NameError` as the explicit `ValueError` (spec: `InputError`) and letting a
sanitizer `InputError` propagate unchanged; with a beat argument, sanitize
it outside any `try` block, so both failure kinds propagate. -/
def fmtRpeaksResolve {RP : Type} (C : Collab RP) (ecg : DF)
    (rpeaks1 : Option RP) : Except Err (List ℕ) :=
  match rpeaks1 with
  | none =>
    match C.sanitize_df ecg with
    | Except.error SanErr.nameError => Except.error Err.inputError
    | Except.error SanErr.inputError => Except.error Err.inputError
    | Except.ok v => Except.ok v
  | some rp =>
    match C.sanitize_rp rp with
    | Except.error SanErr.nameError => Except.error Err.nameError
    | Except.error SanErr.inputError => Except.error Err.inputError
    | Except.ok v => Except.ok v

/-- Rest of `_ecg_rsa_formatinput` once the heart-period series is known:
respiration resolution, beat-index resolution, column-wise concatenation
and the respiration-series pick (clean > raw > generic). -/
def fmtRest {RP : Type} (C : Collab RP) (ecg : DF) (rsp_arg : Option RspArg)
    (rpeaks1 : Option RP) (sr : ℚ) (ecg_period : List ℚ) :
    Except Err FmtOut :=
  match fmtRpeaksResolve C ecg rpeaks1 with
  | Except.error e => Except.error e
  | Except.ok rpeaks2 =>
    let signals : DF :=
      match fmtRsp C ecg rsp_arg sr ecg_period with
      | some d => DF.hcat ecg d
      | none => ecg
    let rsp_signal : Option (List ℚ) :=
      if signals.hasCol ("RSP_Clean") then some (signals.col ("RSP_Clean"))
      else if signals.hasCol ("RSP_Raw") then some (signals.col ("RSP_Raw"))
      else if signals.hasCol ("RSP") then some (signals.col ("RSP"))
      else none
    Except.ok { signals := signals, ecg_period := ecg_period,
                rpeaks := rpeaks2, rsp_signal := rsp_signal }

/-- Embedding of `_ecg_rsa_formatinput`.  Control flow follows the source:
tuple unpacking, then heart-period extraction (rate-like column, else rate
derived from beats given a beat-marker column, else `ValueError` — the
spec's `InputError`), then `fmtRest`. -/
def _ecg_rsa_formatinput {RP : Type} (C : Collab RP) (ecg_arg : EcgArg)
    (rsp_arg : Option RspArg) (rpeaks_arg : Option RP) (sr : ℚ) :
    Except Err FmtOut :=
  let ecg := fmtEcgTable ecg_arg
  let rpeaks1 : Option RP := fmtRpeaksArg ecg_arg rpeaks_arg
  match ecg.firstColWith ("ECG_Rate") with
  | some data => fmtRest C ecg rsp_arg rpeaks1 sr data
  | none =>
    match ecg.firstColWith ("ECG_R_Peaks") with
    | some _ =>
      fmtRest C ecg rsp_arg rpeaks1 sr (C.signal_rate rpeaks1 sr ecg.nrows)
    | none => Except.error Err.inputError

-- =============================================================
-- Cycle extractor (`_ecg_rsa_cycles`)
-- =============================================================

/-- Result of `_ecg_rsa_cycles`. -/
structure RSACycles : Type where
  RSP_Inspiration_Onsets : List ℕ
  RSP_Expiration_Onsets : List ℕ
  RSP_Cycles_Length : List ℤ
deriving DecidableEq, Repr

/-- Embedding of `_ecg_rsa_cycles`: inspiration onsets are
`np.intersect1d(np.where(RSP_Phase == 1)[0],
np.where(RSP_Phase_Completion == 0)[0], assume_unique=True)`, expiration
onsets the same with phase 0, and cycle lengths
`np.diff(inspiration_onsets)`. -/
def _ecg_rsa_cycles (signals : DF) : RSACycles :=
  let inspiration_onsets :=
    np_intersect1d (whereEq (signals.col ("RSP_Phase")) 1)
      (whereEq (signals.col ("RSP_Phase_Completion")) 0)
  let expiration_onsets :=
    np_intersect1d (whereEq (signals.col ("RSP_Phase")) 0)
      (whereEq (signals.col ("RSP_Phase_Completion")) 0)
  { RSP_Inspiration_Onsets := inspiration_onsets
    RSP_Expiration_Onsets := expiration_onsets
    RSP_Cycles_Length := npdiff (inspiration_onsets.map Int.ofNat) }

-- =============================================================
-- Orchestrator peak-selection preprocessing (`ecg_rsa`, lines 130-138)
-- =============================================================

/-- Embedding of the orchestrator's cycle/peak preprocessing: extract
inspiration onsets, take the respiratory peak rows
(`np.argwhere(signals["RSP_Peaks"] == 1)`) strictly past the first onset
(`rsp_peaks[rsp_peaks > rsp_onsets[0]]` — reading `rsp_onsets[0]` of an
empty onset array is an uncaught `IndexError`), and drop the last peak when
the counts coincide; the residual count-mismatch warning is non-fatal and
not represented. -/
def ecg_rsa_core (signals : DF) : Except Err (List ℕ × List ℕ) :=
  let rsp_onsets := (_ecg_rsa_cycles signals).RSP_Inspiration_Onsets
  let rsp_peaks0 := whereEq (signals.col ("RSP_Peaks")) 1
  match rsp_onsets with
  | [] => Except.error Err.indexError
  | o0 :: _ =>
    let rsp_peaks1 := rsp_peaks0.filter (fun p => decide (o0 < p))
    let rsp_peaks2 :=
      if rsp_peaks1.length = rsp_onsets.length then rsp_peaks1.dropLast
      else rsp_peaks1
    Except.ok (rsp_onsets, rsp_peaks2)

-- =============================================================
-- Porges-Bohrer estimator (`_ecg_rsa_pb`)
-- =============================================================

/-- Samples of `xs` belonging to epoch `e`: the rows whose epoch index
`time // 30` equals `e`, with `time = i / 2` seconds at the fixed 2 Hz grid,
so the epoch index of sample `i` is `i / 60` (integer division). -/
def pbEpochSamples (xs : List ℚ) (e : ℕ) : List ℚ :=
  ((List.range xs.length).filter (fun i => decide (i / 60 = e))).map
    (fun i => xs.getD i 0)

/-- The epoch list `[time.loc[i] for i in range(int(np.max(epoch_index)) + 1)]`:
every epoch index from 0 to the maximum occurring one, the last epoch being
possibly incomplete.  Only used for non-empty `xs` (`np.max` of an empty
array raises). -/
def pbEpochs (xs : List ℚ) : List (List ℚ) :=
  (List.range ((xs.length - 1) / 60 + 1)).map (pbEpochSamples xs)

/-- Sample variance with the pandas default `ddof=1` (`epoch.var(axis=0)`):
NaN (`none`) for fewer than two samples (division `0/0` at one sample, NaN
mean at zero samples). -/
def pd_var (l : List ℚ) : Option ℚ :=
  if l.length ≤ 1 then none
  else some ((l.map (fun x => (x - l.sum / (l.length : ℚ)) ^ 2)).sum /
    ((l.length : ℚ) - 1))

/-- Per-epoch value `np.log(epoch.var(axis=0) / 1000)`. -/
def pbLogVals (xs : List ℚ) : List LogVal :=
  (pbEpochs xs).map (fun ep => np_log ((pd_var ep).map (fun v => v / 1000)))

/-- Exact value of the final mean `pd.concat(variance).mean()` over the kept
(non-NaN) epoch log-variances: `nan` if a NaN contributes (never reached:
NaN entries were filtered out), negative infinity if some epoch contributed
`ln 0` (sum with a `-inf` term), else the exact real
`(ln q_1 + ... + ln q_n) / n = (1/n) * ln (q_1 * ... * q_n)`, recorded
symbolically as `scaledLn (1/n) (q_1 * ... * q_n)`. -/
inductive PBVal : Type where
  | nan : PBVal
  | ninf : PBVal
  | scaledLn : ℚ → ℚ → PBVal
deriving DecidableEq, Repr

/-- Argument of a finite log value (used by the symbolic mean). -/
def logArg : LogVal → ℚ
  | LogVal.lnPos q => q
  | _ => 1

/-- Mean of a list of log values (see `PBVal`). -/
def pd_mean_logs (ls : List LogVal) : PBVal :=
  if ls.contains LogVal.nan then PBVal.nan
  else if ls.contains LogVal.ninf then PBVal.ninf
  else PBVal.scaledLn (1 / (ls.length : ℚ)) ((ls.map logArg).prod)

/-- Embedding of the epoch partition and aggregation of `_ecg_rsa_pb`
(source lines 217-229), taking the band-filtered residual
`zero_mean_filtered` as input: partition into epochs by `time // 30`,
per-epoch value `np.log(var / 1000)`, drop NaN values
(`np.isnan(row).any()` — note `-inf` is not NaN and is kept), raise on
`pd.concat` of an empty list, else return the mean. -/
def pbEpochAgg (xs : List ℚ) : Except Err PBVal :=
  if xs.length = 0 then Except.error Err.emptyArrayMax
  else
    let kept := (pbLogVals xs).filter (fun l => !(np_isnan_log l))
    if kept.length = 0 then Except.error Err.emptyConcat
    else Except.ok (pd_mean_logs kept)

/-- Embedding of `_ecg_rsa_pb` in non-continuous mode: resample the
heart-period series to 2 Hz, subtract the Savitzky-Golay trend, band-limit
the residual (all three via external collaborators), then aggregate epoch
log-variances.  In continuous mode the source returns `None` before any of
this; the orchestrator embedding only calls it in non-continuous mode. -/
def _ecg_rsa_pb {RP : Type} (C : Collab RP) (ecg_period : List ℚ) (sr : ℚ) :
    Except Err PBVal :=
  let resampled := C.resample ecg_period sr 2
  let trend := C.savgol resampled
  let zero_mean := List.zipWith (fun a b => a - b) resampled trend
  let zero_mean_filtered := C.band zero_mean
  pbEpochAgg zero_mean_filtered

-- =============================================================
-- Entry point (`ecg_rsa`)
-- =============================================================

/-- Result of `ecg_rsa`: the flat scalar mapping (non-continuous mode, P2T
fields plus the Porges-Bohrer value) or the continuous interpolated trace. -/
inductive RSAResult : Type where
  | scalars : P2TOut → PBVal → RSAResult
  | trace : List ℚ → RSAResult
deriving DecidableEq, Repr

/-- Keep the entries of `xs` at positions where `mask` is `true`
(numpy boolean-mask indexing `xs[mask]`, equal lengths). -/
def maskFilter (xs : List ℕ) (mask : List Bool) : List ℕ :=
  (List.zip xs mask).filterMap (fun p => if p.2 then some p.1 else none)

/-- Embedding of the public entry point `ecg_rsa`: format inputs, extract
cycles and select peaks, then run both estimators and assemble the result.
In continuous mode the per-cycle values are interpolated against the peak
locations (a length mismatch between the boolean mask and the peak array
would be an uncaught numpy `IndexError`). -/
def ecg_rsa {RP : Type} (C : Collab RP) (ecg_arg : EcgArg)
    (rsp_arg : Option RspArg) (rpeaks_arg : Option RP) (sr : ℚ)
    (continuous : Bool) : Except Err RSAResult :=
  match _ecg_rsa_formatinput C ecg_arg rsp_arg rpeaks_arg sr with
  | Except.error e => Except.error e
  | Except.ok fo =>
    match ecg_rsa_core fo.signals with
    | Except.error e => Except.error e
    | Except.ok (rsp_onsets, rsp_peaks) =>
      if continuous then
        let vals := rsaValues rsp_onsets fo.rpeaks sr
        if rsp_peaks.length ≠ vals.length then Except.error Err.indexError
        else
          Except.ok (RSAResult.trace
            (C.interp (maskFilter rsp_peaks (vals.map (fun v => !v.isNone)))
              (vals.filterMap id) fo.ecg_period.length))
      else
        match _ecg_rsa_pb C fo.ecg_period sr with
        | Except.error e => Except.error e
        | Except.ok pbv =>
          Except.ok (RSAResult.scalars
            (_ecg_rsa_p2t_noncont rsp_onsets fo.rpeaks sr) pbv)

-- =============================================================
-- Helper lemmas
-- =============================================================

theorem le_foldl_max (t : List ℚ) (x : ℚ) : x ≤ t.foldl max x := by
  induction t generalizing x with
  | nil => exact le_refl x
  | cons a t ih => exact le_trans (le_max_left x a) (ih (max x a))

theorem foldl_min_le (t : List ℚ) (x : ℚ) : t.foldl min x ≤ x := by
  induction t generalizing x with
  | nil => exact le_refl x
  | cons a t ih => exact le_trans (ih (min x a)) (min_le_left x a)

theorem np_min_le_np_max (l : List ℚ) (h : l ≠ []) : np_min l ≤ np_max l := by
  match l with
  | [] => exact absurd rfl h
  | x :: t =>
    exact le_trans (foldl_min_le t x) (le_foldl_max t x)

theorem npdiff_length (l : List ℤ) : (npdiff l).length = l.length - 1 := by
  match l with
  | [] => rfl
  | [a] => rfl
  | a :: b :: t =>
    have ih := npdiff_length (b :: t)
    simp only [npdiff, List.length_cons] at ih ⊢
    omega

theorem mem_whereEq (xs : List ℚ) (v : ℚ) (i : ℕ) :
    i ∈ whereEq xs v ↔ i < xs.length ∧ xs.getD i 0 = v := by
  unfold whereEq
  rw [List.mem_filter, List.mem_range, decide_eq_true_eq]

theorem mem_np_intersect1d (a b : List ℕ) (x : ℕ) :
    x ∈ np_intersect1d a b ↔ x ∈ a ∧ x ∈ b := by
  unfold np_intersect1d
  rw [List.mem_filter, decide_eq_true_eq]

theorem cyclesRri_length (rsp_onsets rpeaks : List ℕ) :
    (cyclesRri rsp_onsets rpeaks).length = rsp_onsets.length - 1 := by
  unfold cyclesRri
  rw [List.length_map, List.length_range]

theorem rsaValues_length (rsp_onsets rpeaks : List ℕ) (sr : ℚ) :
    (rsaValues rsp_onsets rpeaks sr).length = rsp_onsets.length - 1 := by
  unfold rsaValues
  rw [List.length_map, cyclesRri_length]

theorem rsaValues_getD (rsp_onsets rpeaks : List ℕ) (sr : ℚ) (idx : ℕ)
    (h : idx < rsp_onsets.length - 1) :
    (rsaValues rsp_onsets rpeaks sr).getD idx none =
      cycleVal sr ((cyclesRri rsp_onsets rpeaks).getD idx []) := by
  have h1 : idx < (cyclesRri rsp_onsets rpeaks).length := by
    rw [cyclesRri_length]; exact h
  have h2 : idx < (rsaValues rsp_onsets rpeaks sr).length := by
    rw [rsaValues_length]; exact h
  rw [List.getD_eq_getElem _ _ h2, List.getD_eq_getElem _ _ h1]
  unfold rsaValues
  rw [List.getElem_map]

theorem cycleRRis_length (sr : ℚ) (cycle : List ℕ) :
    (cycleRRis sr cycle).length = cycle.length - 1 := by
  simp only [cycleRRis, List.length_map, npdiff_length]

theorem filterMap_id_filter_isSome (vs : List (Option ℚ)) :
    (vs.filter (fun v => !v.isNone)).filterMap id = vs.filterMap id := by
  induction vs with
  | nil => rfl
  | cons a t ih =>
    match a with
    | none => simpa using ih
    | some q => simpa using ih

theorem range_filter_div60 (n e : ℕ) :
    (List.range n).filter (fun i => decide (i / 60 = e)) =
      List.range' (60 * e) (min 60 (n - 60 * e)) := by
  induction n with
  | zero => simp
  | succ n ih =>
    rw [List.range_succ, List.filter_append, ih]
    by_cases h : n / 60 = e
    · have h1 : min 60 (n + 1 - 60 * e) = (n - 60 * e) + 1 := by omega
      have h2 : 60 * e + (n - 60 * e) = n := by omega
      have h3 : min 60 (n - 60 * e) = n - 60 * e := by omega
      rw [h1, List.range'_1_concat, h2, h3]
      simp [h]
    · have h1 : min 60 (n + 1 - 60 * e) = min 60 (n - 60 * e) := by omega
      simp [h, h1]

theorem pbEpochSamples_eq (xs : List ℚ) (e : ℕ) :
    pbEpochSamples xs e = (xs.drop (60 * e)).take 60 := by
  unfold pbEpochSamples
  rw [range_filter_div60]
  apply List.ext_getElem
  · rw [List.length_map, List.length_range', List.length_take, List.length_drop]
  · intro i h1 h2
    rw [List.length_map, List.length_range'] at h1
    have hb : 60 * e + i < xs.length := by
      rw [List.length_take, List.length_drop] at h2
      omega
    rw [List.getElem_map, List.getElem_range', List.getElem_take,
      List.getElem_drop]
    have h3 : 60 * e + 1 * i = 60 * e + i := by omega
    rw [h3, List.getD_eq_getElem _ _ hb]

theorem pbEpochs_length (xs : List ℚ) :
    (pbEpochs xs).length = (xs.length - 1) / 60 + 1 := by
  unfold pbEpochs
  rw [List.length_map, List.length_range]

theorem pbEpochs_getD (xs : List ℚ) (e : ℕ)
    (h : e < (xs.length - 1) / 60 + 1) :
    (pbEpochs xs).getD e [] = (xs.drop (60 * e)).take 60 := by
  have h1 : e < (pbEpochs xs).length := by rw [pbEpochs_length]; exact h
  rw [List.getD_eq_getElem _ _ h1]
  unfold pbEpochs
  rw [List.getElem_map, List.getElem_range]
  exact pbEpochSamples_eq xs e

theorem pd_var_eq_some (l : List ℚ) (h : 2 ≤ l.length) :
    pd_var l = some ((l.map (fun x => (x - l.sum / (l.length : ℚ)) ^ 2)).sum /
      ((l.length : ℚ) - 1)) := by
  unfold pd_var
  have h1 : ¬(l.length ≤ 1) := by omega
  rw [if_neg h1]

theorem pd_var_nonneg (l : List ℚ) (v : ℚ) (h : pd_var l = some v) : 0 ≤ v := by
  unfold pd_var at h
  by_cases hl : l.length ≤ 1
  · rw [if_pos hl] at h
    exact absurd h (by simp)
  · rw [if_neg hl] at h
    have hv := Option.some_injective _ h
    subst hv
    apply div_nonneg
    · apply List.sum_nonneg
      intro x hx
      obtain ⟨y, _, rfl⟩ := List.mem_map.1 hx
      positivity
    · have h2 : (2 : ℚ) ≤ (l.length : ℚ) := by exact_mod_cast by omega
      linarith

theorem pb_isnan_iff (ep : List ℚ) :
    np_isnan_log (np_log ((pd_var ep).map (fun v => v / 1000))) = true ↔
      ep.length ≤ 1 := by
  by_cases h : ep.length ≤ 1
  · simp only [pd_var, if_pos h, Option.map_none', np_log, np_isnan_log]
    exact iff_of_true trivial h
  · have h2 : 2 ≤ ep.length := by omega
    rw [pd_var_eq_some ep h2]
    set v := (ep.map (fun x => (x - ep.sum / (ep.length : ℚ)) ^ 2)).sum /
      ((ep.length : ℚ) - 1) with hv
    have hv0 : 0 ≤ v := pd_var_nonneg ep v (pd_var_eq_some ep h2)
    have hd : ¬(v / 1000 < 0) := by
      intro hc
      have : (0:ℚ) ≤ v / 1000 := by positivity
      linarith
    simp only [Option.map_some', np_log, if_neg hd]
    by_cases h0 : v / 1000 = 0
    · rw [if_pos h0]
      simp only [np_isnan_log]
      exact iff_of_false (by simp) h
    · rw [if_neg h0]
      simp only [np_isnan_log]
      exact iff_of_false (by simp) h

-- =============================================================
-- Claim theorems
-- =============================================================

/-- C1, counterexample: the claim is false as stated.  The cycle `[0, 10)`
of onsets `[0, 10]` with beats `[2, 5]` contains exactly 2 beat indices, yet
the per-cycle P2T estimate is the NaN sentinel (`none`), not
`max(interval) - min(interval)` (which would be `some 0`): the code requires
`len(RRis) > 1`, i.e. at least 3 beats. -/
theorem c1_p2t_two_beats_cex :
    ((cyclesRri [0, 10] [2, 5]).getD 0 []).length = 2 ∧
    (rsaValues [0, 10] [2, 5] 1).getD 0 none = none ∧
    (rsaValues [0, 10] [2, 5] 1).getD 0 none ≠
      some (np_max (cycleRRis 1 ((cyclesRri [0, 10] [2, 5]).getD 0 [])) -
        np_min (cycleRRis 1 ((cyclesRri [0, 10] [2, 5]).getD 0 []))) := by
  with_unfolding_all decide

/-- C1 (amended): for every respiratory cycle `[onset_idx, onset_{idx+1})`
containing at least 3 beat indices (equivalently, at least 2 successive
inter-beat intervals), the per-cycle P2T RSA estimate equals max minus min
of the successive inter-beat intervals (beat-index differences divided by
the sampling rate) of the beats falling in that half-open interval, and
that value is nonnegative. -/
theorem c1_p2t_cycle_range (rsp_onsets rpeaks : List ℕ) (sr : ℚ) (idx : ℕ)
    (hidx : idx < rsp_onsets.length - 1) (hsr : 0 < sr)
    (hbeats : 3 ≤ ((cyclesRri rsp_onsets rpeaks).getD idx []).length) :
    (rsaValues rsp_onsets rpeaks sr).getD idx none =
      some (np_max (cycleRRis sr ((cyclesRri rsp_onsets rpeaks).getD idx [])) -
        np_min (cycleRRis sr ((cyclesRri rsp_onsets rpeaks).getD idx []))) ∧
    0 ≤ np_max (cycleRRis sr ((cyclesRri rsp_onsets rpeaks).getD idx [])) -
      np_min (cycleRRis sr ((cyclesRri rsp_onsets rpeaks).getD idx [])) := by
  have hlen : 1 < (cycleRRis sr ((cyclesRri rsp_onsets rpeaks).getD idx [])).length := by
    rw [cycleRRis_length]; omega
  have hne : cycleRRis sr ((cyclesRri rsp_onsets rpeaks).getD idx []) ≠ [] := by
    intro hc
    rw [hc] at hlen
    simp at hlen
  constructor
  · rw [rsaValues_getD _ _ _ _ hidx]
    unfold cycleVal
    rw [if_pos hlen]
  · have hmm := np_min_le_np_max _ hne
    linarith

/-- C1 (amended), witness at onsets `[0, 10]`, beats `[2, 5, 8]`,
sampling rate 1. -/
theorem c1_p2t_cycle_range_witness :
    (rsaValues [0, 10] [2, 5, 8] 1).getD 0 none =
      some (np_max (cycleRRis 1 ((cyclesRri [0, 10] [2, 5, 8]).getD 0 [])) -
        np_min (cycleRRis 1 ((cyclesRri [0, 10] [2, 5, 8]).getD 0 []))) ∧
    0 ≤ np_max (cycleRRis 1 ((cyclesRri [0, 10] [2, 5, 8]).getD 0 [])) -
      np_min (cycleRRis 1 ((cyclesRri [0, 10] [2, 5, 8]).getD 0 [])) :=
  c1_p2t_cycle_range [0, 10] [2, 5, 8] 1 0 (by decide) (by norm_num)
    (by with_unfolding_all decide)

/-- C4: a cycle with fewer than 2 beats gets the NaN sentinel (no error is
raised: the embedding of `_ecg_rsa_p2t` is a total function); NaN cycles
are excluded from the mean and standard-deviation aggregates (dropping them
beforehand changes nothing) and `RSA_P2T_NoRSA` counts exactly the NaN
cycles. -/
theorem c4_p2t_nan_policy (rsp_onsets rpeaks : List ℕ) (sr : ℚ) :
    (∀ idx, ((cyclesRri rsp_onsets rpeaks).getD idx []).length < 2 →
      (rsaValues rsp_onsets rpeaks sr).getD idx none = none) ∧
    (_ecg_rsa_p2t_noncont rsp_onsets rpeaks sr).RSA_P2T_NoRSA =
      ((rsaValues rsp_onsets rpeaks sr).filter Option.isNone).length ∧
    (_ecg_rsa_p2t_noncont rsp_onsets rpeaks sr).RSA_P2T_Mean =
      np_nanmean ((rsaValues rsp_onsets rpeaks sr).filter (fun v => !v.isNone)) ∧
    (_ecg_rsa_p2t_noncont rsp_onsets rpeaks sr).RSA_P2T_SD_sq =
      np_nanvar_ddof1 ((rsaValues rsp_onsets rpeaks sr).filter (fun v => !v.isNone)) := by
  refine ⟨?_, rfl, ?_, ?_⟩
  · intro idx hfew
    by_cases hidx : idx < rsp_onsets.length - 1
    · rw [rsaValues_getD _ _ _ _ hidx]
      unfold cycleVal
      rw [if_neg]
      rw [cycleRRis_length]
      omega
    · apply List.getD_eq_default
      rw [rsaValues_length]
      omega
  · show np_nanmean (rsaValues rsp_onsets rpeaks sr) = _
    unfold np_nanmean
    rw [filterMap_id_filter_isSome]
  · show np_nanvar_ddof1 (rsaValues rsp_onsets rpeaks sr) = _
    unfold np_nanvar_ddof1
    rw [filterMap_id_filter_isSome]

/-- C4, witness at onsets `[0, 10]`, single beat `[3]`: the only cycle has
one beat, its value is NaN, and NoRSA counts it. -/
theorem c4_p2t_nan_policy_witness :
    (rsaValues [0, 10] [3] 1).getD 0 none = none ∧
    (_ecg_rsa_p2t_noncont [0, 10] [3] 1).RSA_P2T_NoRSA = 1 :=
  ⟨(c4_p2t_nan_policy [0, 10] [3] 1).1 0 (by with_unfolding_all decide),
    by with_unfolding_all decide⟩

/-- C6: `RSA_P2T_SD` is the sample standard deviation of the non-missing
per-cycle values with Bessel's correction: its radicand `RSA_P2T_SD_sq`
equals the sum of squared deviations of the non-NaN values divided by
`n - 1` when `n ≥ 2`; for exactly one non-missing value it is NaN (`none`),
hence the standard deviation (its real square root) is NaN and in
particular not zero (`SD_sq ≠ some 0`). -/
theorem c6_p2t_sd_bessel (rsp_onsets rpeaks : List ℕ) (sr : ℚ) :
    (2 ≤ ((rsaValues rsp_onsets rpeaks sr).filterMap id).length →
      (_ecg_rsa_p2t_noncont rsp_onsets rpeaks sr).RSA_P2T_SD_sq =
        some ((((rsaValues rsp_onsets rpeaks sr).filterMap id).map
            (fun x => (x - ((rsaValues rsp_onsets rpeaks sr).filterMap id).sum /
              ((((rsaValues rsp_onsets rpeaks sr).filterMap id).length : ℚ))) ^ 2)).sum /
          (((((rsaValues rsp_onsets rpeaks sr).filterMap id).length : ℚ)) - 1))) ∧
    (((rsaValues rsp_onsets rpeaks sr).filterMap id).length = 1 →
      (_ecg_rsa_p2t_noncont rsp_onsets rpeaks sr).RSA_P2T_SD_sq = none ∧
      (_ecg_rsa_p2t_noncont rsp_onsets rpeaks sr).RSA_P2T_SD_sq ≠ some 0) := by
  constructor
  · intro h2
    show np_nanvar_ddof1 (rsaValues rsp_onsets rpeaks sr) = _
    unfold np_nanvar_ddof1
    rw [if_neg (by omega)]
  · intro h1
    have hnone : (_ecg_rsa_p2t_noncont rsp_onsets rpeaks sr).RSA_P2T_SD_sq = none := by
      show np_nanvar_ddof1 (rsaValues rsp_onsets rpeaks sr) = none
      unfold np_nanvar_ddof1
      rw [if_pos (by omega)]
    exact ⟨hnone, by rw [hnone]; simp⟩

/-- C6, witness at onsets `[0, 10, 20]`, beats `[1, 3, 5]`: exactly one
non-missing cycle value remains, and the SD radicand is NaN. -/
theorem c6_p2t_sd_bessel_witness :
    (_ecg_rsa_p2t_noncont [0, 10, 20] [1, 3, 5] 1).RSA_P2T_SD_sq = none ∧
    (_ecg_rsa_p2t_noncont [0, 10, 20] [1, 3, 5] 1).RSA_P2T_SD_sq ≠ some 0 :=
  (c6_p2t_sd_bessel [0, 10, 20] [1, 3, 5] 1).2 (by with_unfolding_all decide)

/-- C7: in non-continuous mode, for every input, the returned
`RSA_P2T_Mean_log` is `np.log` applied to the returned `RSA_P2T_Mean`
itself — derived from that same value, never computed independently. -/
theorem c7_p2t_mean_log (rsp_onsets rpeaks : List ℕ) (sr : ℚ) :
    (_ecg_rsa_p2t_noncont rsp_onsets rpeaks sr).RSA_P2T_Mean_log =
      np_log ((_ecg_rsa_p2t_noncont rsp_onsets rpeaks sr).RSA_P2T_Mean) := rfl

/-- Concrete aligned table for the cycle-extraction example of C5: phase
sequence `[1,1,1,0,0,0,1,1,0,0]` with phase-completion resetting to zero at
each transition point (indices 0, 3, 6, 8). -/
def c5df : DF :=
  ⟨[(("RSP_Phase"), [1, 1, 1, 0, 0, 0, 1, 1, 0, 0]),
    (("RSP_Phase_Completion"),
      [0, 1/3, 2/3, 0, 1/3, 2/3, 0, 1/2, 0, 1/2])]⟩

/-- C5: the cycle extractor returns as inspiration onsets exactly the row
indices where phase is 1 and phase-completion is 0 (in strictly increasing
order), as expiration onsets exactly those where phase is 0 and
phase-completion is 0, and as cycle lengths the consecutive differences of
the inspiration onsets (one fewer element than the onset count); on the
phase sequence `[1,1,1,0,0,0,1,1,0,0]` with completion resets at the
transitions, inspiration onsets are `[0, 6]`, expiration onsets `[3, 8]`
and the cycle length sequence `[6]`. -/
theorem c5_cycles (signals : DF) :
    (∀ i, i ∈ (_ecg_rsa_cycles signals).RSP_Inspiration_Onsets ↔
      (i < (signals.col ("RSP_Phase")).length ∧
        (signals.col ("RSP_Phase")).getD i 0 = 1 ∧
        i < (signals.col ("RSP_Phase_Completion")).length ∧
        (signals.col ("RSP_Phase_Completion")).getD i 0 = 0)) ∧
    List.Pairwise (· < ·) (_ecg_rsa_cycles signals).RSP_Inspiration_Onsets ∧
    (∀ i, i ∈ (_ecg_rsa_cycles signals).RSP_Expiration_Onsets ↔
      (i < (signals.col ("RSP_Phase")).length ∧
        (signals.col ("RSP_Phase")).getD i 0 = 0 ∧
        i < (signals.col ("RSP_Phase_Completion")).length ∧
        (signals.col ("RSP_Phase_Completion")).getD i 0 = 0)) ∧
    (_ecg_rsa_cycles signals).RSP_Cycles_Length =
      npdiff ((_ecg_rsa_cycles signals).RSP_Inspiration_Onsets.map Int.ofNat) ∧
    (_ecg_rsa_cycles signals).RSP_Cycles_Length.length =
      (_ecg_rsa_cycles signals).RSP_Inspiration_Onsets.length - 1 ∧
    _ecg_rsa_cycles c5df =
      { RSP_Inspiration_Onsets := [0, 6], RSP_Expiration_Onsets := [3, 8],
        RSP_Cycles_Length := [6] } := by
  refine ⟨?_, ?_, ?_, rfl, ?_, ?_⟩
  · intro i
    show i ∈ np_intersect1d _ _ ↔ _
    rw [mem_np_intersect1d, mem_whereEq, mem_whereEq]
    tauto
  · show List.Pairwise (· < ·) (np_intersect1d (whereEq _ _) (whereEq _ _))
    apply List.Pairwise.sublist (List.filter_sublist _)
    apply List.Pairwise.sublist (List.filter_sublist _)
    exact List.pairwise_lt_range _
  · intro i
    show i ∈ np_intersect1d _ _ ↔ _
    rw [mem_np_intersect1d, mem_whereEq, mem_whereEq]
    tauto
  · show (npdiff _).length = _
    rw [npdiff_length, List.length_map]
    rfl
  · with_unfolding_all decide

set_option maxRecDepth 4000 in
/-- C2, counterexample: the claim is false in its constant-input part.  An
all-zero filtered residual — which the spec itself stipulates is what a
constant (zero-variance) heart-period input yields, every epoch variance
being zero — makes every epoch log-variance `ln 0 = -inf`, which is NOT
NaN: nothing is dropped, no error is raised, and the aggregation returns
the numeric value negative infinity instead of raising. -/
theorem c2_pb_constant_cex :
    (∀ ep ∈ pbEpochs (List.replicate 120 0), pd_var ep = some 0) ∧
    pbEpochAgg (List.replicate 120 0) = Except.ok PBVal.ninf ∧
    (Except.ok PBVal.ninf : Except Err PBVal) ≠ Except.error Err.emptyConcat := by
  with_unfolding_all decide

/-- C2 (amended): in non-continuous mode, if zero valid (non-NaN) epoch
log-variances remain after the epoch loop, the computation raises an error
(the uncaught pandas `ValueError` from concatenating an empty list — the
condition the spec labels `ComputationError`) rather than returning a
numeric value.  A constant heart-period input, however, does not reach this
path: its zero-variance epochs yield `-inf` (not NaN) log-variances, which
are retained (see the counterexample). -/
theorem c2_pb_empty_error (xs : List ℚ) (hne : xs ≠ [])
    (hzero : ((pbLogVals xs).filter (fun l => !(np_isnan_log l))).length = 0) :
    pbEpochAgg xs = Except.error Err.emptyConcat := by
  unfold pbEpochAgg
  have h0 : ¬(xs.length = 0) := fun h => hne (List.length_eq_zero.mp h)
  rw [if_neg h0]
  show (if _ then _ else _) = _
  rw [if_pos hzero]

/-- C2 (amended), witness: a single-sample residual has one single-sample
epoch, whose variance (ddof = 1) is NaN; zero valid epochs remain and the
empty-concatenation error is raised. -/
theorem c2_pb_empty_error_witness :
    pbEpochAgg [5] = Except.error Err.emptyConcat :=
  c2_pb_empty_error [5] (by decide) (by with_unfolding_all decide)

/-- Epochs as described by the claim's words, for the refinement comparison
of C3: only the complete 30-second epochs, i.e. the consecutive 60-sample
blocks that are entirely filled. -/
def spec_completeEpochs (xs : List ℚ) : List (List ℚ) :=
  (List.range (xs.length / 60)).map (fun e => (xs.drop (60 * e)).take 60)

set_option maxRecDepth 4000 in
/-- C3, counterexample: the claim is false in its "only complete epochs
contribute" part.  A 2-sample residual `[0, 2]` has no complete epoch at
all, yet the code's (single, incomplete) epoch contributes its sample
variance 2: the result is the numeric value `ln(2/1000)` — recorded
symbolically as `scaledLn 1 (1/500)` — not an aggregation over zero
contributing epochs. -/
theorem c3_pb_incomplete_epoch_cex :
    spec_completeEpochs [0, 2] = [] ∧
    pd_var [0, 2] = some 2 ∧
    pbEpochAgg [0, 2] = Except.ok (PBVal.scaledLn 1 (1 / 500)) := by
  with_unfolding_all decide

/-- C3 (amended): the filtered residual is partitioned into 30-second
epochs by epoch index `floor(sample_time_seconds / 30)` (60 samples each at
the 2 Hz grid), every epoch index from 0 to the maximum occurring one
contributing — epoch `e` is the block `xs[60e : 60e + 60]`, the final block
being possibly incomplete; each epoch's value is `ln(var / 1000)` with
`var` its sample variance; an epoch's value is NaN exactly when the epoch
has fewer than 2 samples, and NaN epochs are dropped; the returned
`RSA_PorgesBohrer` is the arithmetic mean of the remaining epoch
log-variances (raising the empty-concatenation error when none remain). -/
theorem c3_pb_epoch_structure (xs : List ℚ) (hne : xs ≠ []) :
    (pbEpochs xs).length = (xs.length - 1) / 60 + 1 ∧
    (∀ e, e < (xs.length - 1) / 60 + 1 →
      (pbEpochs xs).getD e [] = (xs.drop (60 * e)).take 60) ∧
    (∀ ep ∈ pbEpochs xs,
      (np_isnan_log (np_log ((pd_var ep).map (fun v => v / 1000))) = true ↔
        ep.length ≤ 1)) ∧
    pbEpochAgg xs =
      (if ((pbLogVals xs).filter (fun l => !(np_isnan_log l))).length = 0
       then Except.error Err.emptyConcat
       else Except.ok (pd_mean_logs
        ((pbLogVals xs).filter (fun l => !(np_isnan_log l))))) := by
  refine ⟨pbEpochs_length xs, ?_, ?_, ?_⟩
  · intro e he
    exact pbEpochs_getD xs e he
  · intro ep _
    exact pb_isnan_iff ep
  · unfold pbEpochAgg
    have h0 : ¬(xs.length = 0) := fun h => hne (List.length_eq_zero.mp h)
    rw [if_neg h0]

/-- C3 (amended), witness at the residual `[0, 2]`: one epoch, equal to the
(incomplete) block of all samples. -/
theorem c3_pb_epoch_structure_witness :
    (pbEpochs [0, 2]).length = 1 ∧
    (pbEpochs [0, 2]).getD 0 [] = ([0, 2] : List ℚ) := by
  have h := c3_pb_epoch_structure [0, 2] (by decide)
  constructor
  · rw [h.1]
    decide
  · rw [h.2.1 0 (by decide)]
    rfl

/-- C8: if the cardiac table has neither a rate-like column (name containing
`ECG_Rate`) nor a beat-marker column (name containing `ECG_R_Peaks`), the
entry point fails immediately with the explicit `ValueError` (the spec's
`InputError`) and produces no output at all; likewise it fails with an
`InputError` when beat indices cannot be located by the sanitizer — whether
the sanitizer was applied to the cardiac table (no beat argument) or to a
supplied beat argument.  The sanitizer behaviour is modelled from the spec
(section 6): it fails with `InputError` when indices cannot be located. -/
theorem c8_input_errors {RP : Type} (C : Collab RP) (rsp_arg : Option RspArg)
    (rpeaks_arg : Option RP) (sr : ℚ) (continuous : Bool) :
    (∀ ecg : DF, ecg.firstColWith ("ECG_Rate") = none →
      ecg.firstColWith ("ECG_R_Peaks") = none →
      ecg_rsa C (EcgArg.df ecg) rsp_arg rpeaks_arg sr continuous =
        Except.error Err.inputError) ∧
    (∀ ecg : DF, (ecg.firstColWith ("ECG_Rate")).isSome = true →
      C.sanitize_df ecg = Except.error SanErr.inputError →
      ecg_rsa C (EcgArg.df ecg) rsp_arg none sr continuous =
        Except.error Err.inputError) ∧
    (∀ ecg : DF, ∀ rp : RP, (ecg.firstColWith ("ECG_Rate")).isSome = true →
      C.sanitize_rp rp = Except.error SanErr.inputError →
      ecg_rsa C (EcgArg.df ecg) rsp_arg (some rp) sr continuous =
        Except.error Err.inputError) := by
  refine ⟨?_, ?_, ?_⟩
  · intro ecg h1 h2
    simp [ecg_rsa, _ecg_rsa_formatinput, fmtEcgTable, fmtRpeaksArg, h1, h2]
  · intro ecg h1 hsan
    obtain ⟨data, hd⟩ := Option.isSome_iff_exists.mp h1
    simp [ecg_rsa, _ecg_rsa_formatinput, fmtEcgTable, fmtRpeaksArg, hd,
      fmtRest, fmtRpeaksResolve, hsan]
  · intro ecg rp h1 hsan
    obtain ⟨data, hd⟩ := Option.isSome_iff_exists.mp h1
    simp [ecg_rsa, _ecg_rsa_formatinput, fmtEcgTable, fmtRpeaksArg, hd,
      fmtRest, fmtRpeaksResolve, hsan]

/-- Collaborator bundle whose sanitizer always fails to locate beat
indices (for the C8 witness). -/
def witCfail : Collab Unit :=
  { signal_rate := fun _ _ n => List.replicate n 0
    ecg_rsp := fun _ _ => []
    rsp_process := fun _ _ => ⟨[]⟩
    sanitize_df := fun _ => Except.error SanErr.inputError
    sanitize_rp := fun _ => Except.error SanErr.inputError
    interp := fun _ _ n => List.replicate n 0
    resample := fun l _ _ => l
    savgol := fun l => l
    band := fun l => l }

/-- C8, witness: a table with no recognized cardiac column fails with
`InputError`; a table with a rate column but unlocatable beat indices also
fails with `InputError`. -/
theorem c8_input_errors_witness :
    ecg_rsa witCfail (EcgArg.df ⟨[(("Foo"), [0])]⟩) none none 1 false =
      Except.error Err.inputError ∧
    ecg_rsa witCfail (EcgArg.df ⟨[(("ECG_Rate"), [800])]⟩) none none 1 false =
      Except.error Err.inputError :=
  ⟨(c8_input_errors witCfail none none 1 false).1 ⟨[(("Foo"), [0])]⟩
      (by with_unfolding_all decide) (by with_unfolding_all decide),
    (c8_input_errors witCfail none none 1 false).2.1 ⟨[(("ECG_Rate"), [800])]⟩
      (by with_unfolding_all decide) rfl⟩

/-- C9: when the cardiac-signals argument is a tuple, the input formatter
uses only its first element as the cardiac table and silently discards any
supplied beat-index argument (resetting it to `None`): the whole run is
identical to passing the bare table with no beat argument, and the
resulting beat indices come from sanitizing the cardiac table itself. -/
theorem c9_tuple_input {RP : Type} (C : Collab RP) (d : DF)
    (rsp_arg : Option RspArg) (rp : Option RP) (sr : ℚ) (idxs : List ℕ)
    (hsan : C.sanitize_df d = Except.ok idxs) (fo : FmtOut)
    (hfo : _ecg_rsa_formatinput C (EcgArg.tup d) rsp_arg rp sr =
      Except.ok fo) :
    _ecg_rsa_formatinput C (EcgArg.tup d) rsp_arg rp sr =
      _ecg_rsa_formatinput C (EcgArg.df d) rsp_arg none sr ∧
    fo.rpeaks = idxs := by
  refine ⟨rfl, ?_⟩
  unfold _ecg_rsa_formatinput at hfo
  simp only [fmtEcgTable, fmtRpeaksArg] at hfo
  have hres : fmtRpeaksResolve C d (none : Option RP) = Except.ok idxs := by
    unfold fmtRpeaksResolve
    rw [hsan]
  rcases h1 : d.firstColWith ("ECG_Rate") with _ | data
  · rw [h1] at hfo
    rcases h2 : d.firstColWith ("ECG_R_Peaks") with _ | data2
    · rw [h2] at hfo
      cases hfo
    · rw [h2] at hfo
      unfold fmtRest at hfo
      rw [hres] at hfo
      simp only [Except.ok.injEq] at hfo
      rw [← hfo]
  · rw [h1] at hfo
    unfold fmtRest at hfo
    rw [hres] at hfo
    simp only [Except.ok.injEq] at hfo
    rw [← hfo]

/-- Collaborator bundle whose sanitizer locates the beat indices `[1]`
(for the C9 and C10 witnesses). -/
def witCok : Collab Unit :=
  { signal_rate := fun _ _ n => List.replicate n 0
    ecg_rsp := fun _ _ => []
    rsp_process := fun _ _ => ⟨[]⟩
    sanitize_df := fun _ => Except.ok [1]
    sanitize_rp := fun _ => Except.ok [1]
    interp := fun _ _ n => List.replicate n 0
    resample := fun l _ _ => l
    savgol := fun l => l
    band := fun l => l }

/-- Cardiac table for the C9 witness. -/
def c9df : DF := ⟨[(("ECG_Rate"), [800])]⟩

/-- Formatter output for the C9 witness: the table (with the empty derived
respiration frame appended), its rate column as period, the sanitized beat
indices from the table, and no respiration series. -/
def c9fo : FmtOut :=
  { signals := ⟨[(("ECG_Rate"), [800])]⟩, ecg_period := [800],
    rpeaks := [1], rsp_signal := none }

set_option maxRecDepth 10000 in
/-- C9, witness: tuple input with a supplied beat argument behaves exactly
as bare-table input with no beat argument, and the result's beat indices
are the ones sanitized from the table. -/
theorem c9_tuple_input_witness :
    _ecg_rsa_formatinput witCok (EcgArg.tup c9df) none (some Unit.unit) 1 =
      _ecg_rsa_formatinput witCok (EcgArg.df c9df) none none 1 ∧
    c9fo.rpeaks = [1] :=
  c9_tuple_input witCok c9df none (some Unit.unit) 1 [1] rfl c9fo
    (by with_unfolding_all decide)

/-- C10: when the aligned table has no inspiration onset (no row with phase
1 and phase-completion 0), the entry point fails with the uncaught
out-of-bounds indexing error from reading `rsp_onsets[0]` during
peak-selection preprocessing — not with the declared `InputError`, nor with
the Porges-Bohrer aggregation error the spec calls `ComputationError`. -/
theorem c10_no_onset_index_error {RP : Type} (C : Collab RP)
    (ecg_arg : EcgArg) (rsp_arg : Option RspArg) (rpeaks_arg : Option RP)
    (sr : ℚ) (continuous : Bool) (fo : FmtOut)
    (hfmt : _ecg_rsa_formatinput C ecg_arg rsp_arg rpeaks_arg sr =
      Except.ok fo)
    (hno : ∀ i, i < (fo.signals.col ("RSP_Phase")).length →
      ¬((fo.signals.col ("RSP_Phase")).getD i 0 = 1 ∧
        i < (fo.signals.col ("RSP_Phase_Completion")).length ∧
        (fo.signals.col ("RSP_Phase_Completion")).getD i 0 = 0)) :
    ecg_rsa C ecg_arg rsp_arg rpeaks_arg sr continuous =
      Except.error Err.indexError ∧
    Err.indexError ≠ Err.inputError ∧ Err.indexError ≠ Err.emptyConcat := by
  refine ⟨?_, by decide, by decide⟩
  have honsets : (_ecg_rsa_cycles fo.signals).RSP_Inspiration_Onsets = [] := by
    rw [List.eq_nil_iff_forall_not_mem]
    intro i hi
    have hi2 : i ∈ np_intersect1d
        (whereEq (fo.signals.col ("RSP_Phase")) 1)
        (whereEq (fo.signals.col ("RSP_Phase_Completion")) 0) := hi
    rw [mem_np_intersect1d, mem_whereEq, mem_whereEq] at hi2
    exact hno i hi2.1.1 ⟨hi2.1.2, hi2.2.1, hi2.2.2⟩
  unfold ecg_rsa
  rw [hfmt]
  simp only [ecg_rsa_core, honsets]

/-- Aligned table for the C10 witness: has the cardiac and respiratory
columns, but the phase is 0 everywhere, so no inspiration onset exists. -/
def c10df : DF :=
  ⟨[(("ECG_Rate"), [800, 800]), (("RSP_Phase"), [0, 0]),
    (("RSP_Phase_Completion"), [0, 0]), (("RSP_Peaks"), [0, 0])]⟩

/-- Formatter output for the C10 witness. -/
def c10fo : FmtOut :=
  { signals := c10df, ecg_period := [800, 800], rpeaks := [1],
    rsp_signal := none }

set_option maxRecDepth 10000 in
/-- C10, witness: on a concrete onset-free table the entry point yields the
out-of-bounds indexing error. -/
theorem c10_no_onset_index_error_witness :
    ecg_rsa witCok (EcgArg.df c10df) none none 1 false =
      Except.error Err.indexError ∧
    Err.indexError ≠ Err.inputError ∧ Err.indexError ≠ Err.emptyConcat :=
  c10_no_onset_index_error witCok (EcgArg.df c10df) none none 1 false c10fo
    (by with_unfolding_all decide) (by with_unfolding_all decide)
